import Mathlib

/-!
Verification of the orchestration layer of `src/bot.py` (a Telegram
video-download bot) against its natural-language specification.

The embedding is shallow: each Python function of the bot is translated
into a pure Lean function.  Interaction with the two external
collaborators (the extraction gateway `yt_dlp` and the Telegram
transport) is modelled by oracle inputs (the gateway's answers) and by
an explicit trace of outbound effects (`Event`).  Python dictionaries
holding per-user state become association lists; Python string
operations (`in`, `strip`, `replace`) are re-implemented on `List Char`
with Python's exact semantics (left-to-right, non-overlapping matching
for `replace`; whitespace trimming at both ends for `strip`).
-/

namespace VideoBot

/-! ### Python string primitives -/

/-- Tries to remove `pat` from the front of `l`; returns the remainder
when `pat` is a leading run of `l`, and `none` otherwise. -/
def stripPat : List Char → List Char → Option (List Char)
  | [], l => some l
  | _ :: _, [] => none
  | p :: ps, c :: cs => if p = c then stripPat ps cs else none

/-- Whether `pat` occurs as a contiguous run anywhere in `l`; embeds
Python's substring test `pat in l`. -/
def occursPat (pat : List Char) : List Char → Bool
  | [] => (stripPat pat []).isSome
  | c :: cs => (stripPat pat (c :: cs)).isSome || occursPat pat cs

/-- Embeds Python's `needle in hay`. -/
def pyContains (needle hay : String) : Bool :=
  occursPat needle.data hay.data

/-- Scanning core of Python's `str.replace(pat, rep)` for a non-empty
`pat`: moves left to right, replaces each non-overlapping occurrence of
`pat` by `rep`, and resumes scanning after the replaced occurrence
(`skip` counts the characters of a matched occurrence still to be
consumed). -/
def pyReplaceAux (pat rep : List Char) : Nat → List Char → List Char
  | _, [] => []
  | Nat.succ k, _ :: cs => pyReplaceAux pat rep k cs
  | 0, c :: cs =>
    match stripPat pat (c :: cs) with
    | some _ => rep ++ pyReplaceAux pat rep (pat.length - 1) cs
    | none => c :: pyReplaceAux pat rep 0 cs

/-- Embeds Python's `str.strip()`: drops whitespace from both ends. -/
def pyStrip (s : String) : String :=
  String.mk (((s.data.dropWhile Char.isWhitespace).reverse.dropWhile
    Char.isWhitespace).reverse)

/-! ### Configuration constants (bot.py lines 18-21) -/

/-- `TELEGRAM_MAX_SIZE = 50 * 1024 * 1024  # 50MB` -/
def TELEGRAM_MAX_SIZE : Nat := 50 * 1024 * 1024

/-! ### Data model -/

/-- One entry of the format list returned by the extraction gateway.
Dictionary fields read with `.get` are modelled as `Option`; an absent
key and a key set to Python `None` both map to `none`. -/
structure Format where
  format_id : String
  height : Option Nat
  ext : Option String
  vcodec : Option String
deriving DecidableEq

/-- The part of the gateway's info dictionary the bot reads:
`info.get('formats', [])`. -/
structure Info where
  formats : List Format
deriving DecidableEq

/-- One inline keyboard button (label and callback token). -/
structure Button where
  label : String
  callback_data : String
deriving DecidableEq

/-- The `ydl_opts` dictionary built by `download_video`
(bot.py lines 102-107). -/
structure YdlDownloadOpts where
  format : String
  outtmpl : String
  quiet : Bool
  max_filesize : Nat
deriving DecidableEq

/-- Outbound effects of the controller, in program order.  Transport
sends/edits carry the message text; gateway calls carry their
arguments. -/
inductive Event where
  | replyText : String → Event
  | replyMenu : String → List (List Button) → Event
  | editText : String → Event
  | answerCallback : Event
  | infoQuery : String → Event
  | downloadCall : String → YdlDownloadOpts → Event
  | sendVideo : String → Event
  | removeFile : String → Event
deriving DecidableEq

/-- Result of one `handle_message` run: effect trace and the session
store (`self.user_data`) after the run. -/
structure HMResult where
  events : List Event
  state : List (Nat × String)
deriving DecidableEq

/-- Oracle answers of the externals during one `quality_handler` run:
what `download_video` returns, the downloaded file's byte size, and
whether the Telegram upload succeeds (raises no exception). -/
structure QEnv where
  downloadResult : Option String
  fileSize : Nat
  uploadOk : Bool
deriving DecidableEq

/-- Result of one `quality_handler` run: effect trace, session store
after the run, and whether the downloaded local file is still on disk
when the handler returns. -/
structure QResult where
  events : List Event
  state : List (Nat × String)
  fileRemains : Bool
deriving DecidableEq

/-! ### Message texts (verbatim from bot.py) -/

def MSG_REJECT : String := "Отправьте ссылку на видео с YouTube, Instagram или TikTok"

def MSG_ANALYZING : String := "?? Анализирую ссылку..."

def MSG_INFO_FAIL : String := "? Не удалось получить информацию о видео"

def MSG_UNAVAILABLE : String := "? Видео недоступно для скачивания"

def MSG_CHOOSE : String := "Выберите качество:"

def MSG_EXPIRED : String := "? Сессия устарела, отправьте ссылку снова"

def MSG_DOWNLOADING : String := "? Скачиваю видео..."

def MSG_DL_FAIL : String := "? Ошибка загрузки"

def MSG_TOO_BIG : String := "? Видео слишком большое (макс. 50MB)"

def MSG_ERROR : String := "? Произошла ошибка"

/-! ### Session store (`self.user_data`) -/

/-- `self.user_data.get(user_id, {}).get('url')`. -/
def storeGet (st : List (Nat × String)) (uid : Nat) : Option String :=
  (st.find? (fun p => p.fst == uid)).map (fun p => p.snd)

/-- `self.user_data[user_id] = {'url': text}` (dict assignment
overwrites any previous entry for the key). -/
def storeSet (st : List (Nat × String)) (uid : Nat) (url : String) :
    List (Nat × String) :=
  (uid, url) :: st.filter (fun p => p.fst != uid)

/-! ### Quality menu builder (`get_quality_keyboard`, bot.py 45-59) -/

/-- Button label `f"{res}p ({ext})"` with
`res = fmt.get('height', '?')` and `ext = fmt.get('ext', 'mp4')`. -/
def heightLabel (fmt : Format) : String :=
  (match fmt.height with
   | some h => toString h
   | none => "?") ++ "p (" ++ fmt.ext.getD "mp4" ++ ")"

/-- The per-rendition button of the quality keyboard. -/
def qualityButton (fmt : Format) : Button :=
  { label := heightLabel fmt, callback_data := "quality_" ++ fmt.format_id }

/-- The trailing automatic-best button of the quality keyboard. -/
def bestButton : Button :=
  { label := "? Оптимальное качество", callback_data := "quality_best" }

/-- `get_quality_keyboard`: one row per format among the first five, in
the given order, then one row with the best-quality button. -/
def get_quality_keyboard (formats : List Format) : List (List Button) :=
  ((formats.take 5).map (fun fmt => [qualityButton fmt])) ++ [[bestButton]]

/-! ### Link handler (`handle_message`, bot.py 71-98) -/

/-- The domain allow-list of bot.py line 76. -/
def SUPPORTED_DOMAINS : List String :=
  ["youtube.com", "youtu.be", "instagram.com", "tiktok.com"]

/-- `any(d in text for d in [...])`. -/
def containsSupported (text : String) : Bool :=
  SUPPORTED_DOMAINS.any (fun d => pyContains d text)

/-- `[f for f in formats if f.get('vcodec') != 'none']`. -/
def videoFormats (formats : List Format) : List Format :=
  formats.filter (fun f => f.vcodec != some "none")

/-- `handle_message`, with the gateway's `extract_info` answer supplied
as the oracle `gw` (`none` models a raised exception, which
`get_video_info` converts to Python `None`). -/
def handle_message (text0 : String) (user_id : Nat)
    (st : List (Nat × String)) (gw : Option Info) : HMResult :=
  let text := pyStrip text0
  if containsSupported text then
    match gw with
    | none =>
      ⟨[.replyText MSG_ANALYZING, .infoQuery text, .replyText MSG_INFO_FAIL], st⟩
    | some info =>
      let video_formats := videoFormats info.formats
      if video_formats = [] then
        ⟨[.replyText MSG_ANALYZING, .infoQuery text, .replyText MSG_UNAVAILABLE], st⟩
      else
        ⟨[.replyText MSG_ANALYZING, .infoQuery text,
          .replyMenu MSG_CHOOSE (get_quality_keyboard video_formats)],
         storeSet st user_id text⟩
  else
    ⟨[.replyText MSG_REJECT], st⟩

/-! ### Quality-selection handler (`quality_handler`, bot.py 119-155)
and `download_video` (bot.py 100-117) -/

/-- `query.data.replace('quality_', '')` (bot.py line 124). -/
def parseQuality (data : String) : String :=
  String.mk (pyReplaceAux "quality_".data [] 0 data.data)

/-- The format selector passed to `download_video`:
`'best' if quality == 'best' else quality` (bot.py line 135). -/
def qualitySel (data : String) : String :=
  let quality := parseQuality data
  if quality = "best" then "best" else quality

/-- The `ydl_opts` dictionary `download_video` hands to the gateway for
a given selector (bot.py lines 102-107). -/
def download_video_opts (quality : String) : YdlDownloadOpts :=
  { format := quality
    outtmpl := "video.%(ext)s"
    quiet := true
    max_filesize := TELEGRAM_MAX_SIZE }

/-- `quality_handler`.  Oracle `env` supplies the download outcome, the
file size, and whether the upload call raises.  `fileRemains` records
whether the downloaded file is still on disk at the end: `os.remove` is
reached only in the size-violation branch and after a successful
`send_video`; an upload exception jumps to the `except` block, which
does not delete. -/
def quality_handler (data : String) (user_id : Nat)
    (st : List (Nat × String)) (env : QEnv) : QResult :=
  let _quality := parseQuality data
  match storeGet st user_id with
  | none => ⟨[.answerCallback, .editText MSG_EXPIRED], st, false⟩
  | some url =>
    if url = "" then
      ⟨[.answerCallback, .editText MSG_EXPIRED], st, false⟩
    else
      let opts := download_video_opts (qualitySel data)
      match env.downloadResult with
      | none =>
        ⟨[.answerCallback, .editText MSG_DOWNLOADING,
          .downloadCall url opts, .editText MSG_DL_FAIL], st, false⟩
      | some path =>
        if env.fileSize > TELEGRAM_MAX_SIZE then
          ⟨[.answerCallback, .editText MSG_DOWNLOADING,
            .downloadCall url opts, .editText MSG_TOO_BIG,
            .removeFile path], st, false⟩
        else if env.uploadOk then
          ⟨[.answerCallback, .editText MSG_DOWNLOADING,
            .downloadCall url opts, .sendVideo path,
            .removeFile path], st, false⟩
        else
          ⟨[.answerCallback, .editText MSG_DOWNLOADING,
            .downloadCall url opts, .sendVideo path,
            .editText MSG_ERROR], st, true⟩

/-! ### Spec-side definition for the refinement check of the format
filter -/

/-- Modelled from the spec's words, for comparison with `videoFormats`:
"Filter the returned list to renditions whose video-codec field is
present". -/
def specVideoFilter (formats : List Format) : List Format :=
  formats.filter (fun f => f.vcodec.isSome)

/-! ### Concrete fixtures used by closed theorems -/

/-- An audio-only entry exactly as `yt_dlp` reports one: the
`vcodec` field is present and holds the literal string `"none"`. -/
def audioOnlyFormat : Format :=
  { format_id := "140", height := none, ext := some "m4a", vcodec := some "none" }

/-- Six video-capable formats, for the more-than-five-rows check. -/
def sixFormats : List Format :=
  [ { format_id := "134", height := some 360, ext := some "mp4", vcodec := some "avc1" }
  , { format_id := "135", height := some 480, ext := some "mp4", vcodec := some "avc1" }
  , { format_id := "136", height := some 720, ext := some "mp4", vcodec := some "avc1" }
  , { format_id := "137", height := some 1080, ext := some "mp4", vcodec := some "avc1" }
  , { format_id := "242", height := some 240, ext := some "webm", vcodec := some "vp9" }
  , { format_id := "243", height := some 360, ext := some "webm", vcodec := some "vp9" } ]

/-! ### Lemmas about the string primitives -/

theorem stripPat_of_append (pat l : List Char) :
    stripPat pat (pat ++ l) = some l := by
  induction pat with
  | nil => rfl
  | cons p ps ih => simp [stripPat, ih]

theorem stripPat_append {pat a b r : List Char}
    (h : stripPat pat a = some r) :
    stripPat pat (a ++ b) = some (r ++ b) := by
  induction pat generalizing a r with
  | nil =>
    simp only [stripPat, Option.some.injEq] at h
    subst h
    rfl
  | cons p ps ih =>
    cases a with
    | nil => simp [stripPat] at h
    | cons c cs =>
      by_cases hpc : p = c
      · simp only [stripPat, if_pos hpc] at h
        simpa [stripPat, hpc] using ih h
      · simp [stripPat, hpc] at h

theorem occursPat_append_right (pat a : List Char) {l : List Char}
    (h : occursPat pat l = true) : occursPat pat (a ++ l) = true := by
  induction a with
  | nil => exact h
  | cons c cs ih => simp [occursPat, ih]

theorem occursPat_append_left {pat : List Char} (hne : pat ≠ [])
    {a : List Char} (b : List Char) (h : occursPat pat a = true) :
    occursPat pat (a ++ b) = true := by
  induction a with
  | nil =>
    cases pat with
    | nil => exact absurd rfl hne
    | cons p ps => simp [occursPat, stripPat] at h
  | cons c cs ih =>
    simp only [occursPat, Bool.or_eq_true] at h
    rcases h with h | h
    · cases hs : stripPat pat (c :: cs) with
      | none => rw [hs] at h; simp at h
      | some r =>
        have h2 : stripPat pat (c :: (cs ++ b)) = some (r ++ b) := by
          simpa using stripPat_append (b := b) hs
        simp [occursPat, h2]
    · simp [occursPat, ih h]

theorem occursPat_pyStrip {pat : List Char} (hne : pat ≠ []) (s : String)
    (h : occursPat pat (pyStrip s).data = true) :
    occursPat pat s.data = true := by
  obtain ⟨t, ht⟩ :=
    List.dropWhile_suffix (l := (s.data.dropWhile Char.isWhitespace).reverse)
      Char.isWhitespace
  obtain ⟨u, hu⟩ := List.dropWhile_suffix (l := s.data) Char.isWhitespace
  have hm : s.data.dropWhile Char.isWhitespace
      = (pyStrip s).data ++ t.reverse := by
    have hrev := congrArg List.reverse ht
    simp only [List.reverse_append, List.reverse_reverse] at hrev
    exact hrev.symm
  have h1 : occursPat pat (s.data.dropWhile Char.isWhitespace) = true := by
    rw [hm]
    exact occursPat_append_left hne _ h
  rw [← hu]
  exact occursPat_append_right pat u h1

theorem containsSupported_of_pyStrip (s : String)
    (h : containsSupported (pyStrip s) = true) :
    containsSupported s = true := by
  rcases List.any_eq_true.mp h with ⟨d, hd, hocc⟩
  refine List.any_eq_true.mpr ⟨d, hd, ?_⟩
  have hne : d.data ≠ [] := by
    simp only [SUPPORTED_DOMAINS, List.mem_cons, List.not_mem_nil,
      or_false] at hd
    rcases hd with rfl | rfl | rfl | rfl <;> decide
  exact occursPat_pyStrip hne s hocc

theorem pyReplaceAux_skip (pat rep : List Char) (xs l : List Char) :
    pyReplaceAux pat rep xs.length (xs ++ l) = pyReplaceAux pat rep 0 l := by
  induction xs with
  | nil => rfl
  | cons x xs ih => simpa [pyReplaceAux] using ih

theorem pyReplaceAux_no_occur (pat rep : List Char) {l : List Char}
    (h : occursPat pat l = false) : pyReplaceAux pat rep 0 l = l := by
  induction l with
  | nil => rfl
  | cons c cs ih =>
    simp only [occursPat, Bool.or_eq_false_iff] at h
    obtain ⟨h1, h2⟩ := h
    have hs : stripPat pat (c :: cs) = none := by
      cases hs : stripPat pat (c :: cs) with
      | none => rfl
      | some r => rw [hs] at h1; simp at h1
    simp [pyReplaceAux, hs, ih h2]

theorem pyReplaceAux_head (p : Char) (ps rep l : List Char) :
    pyReplaceAux (p :: ps) rep 0 ((p :: ps) ++ l)
      = rep ++ pyReplaceAux (p :: ps) rep 0 l := by
  have hs : stripPat (p :: ps) (p :: (ps ++ l)) = some l := by
    simpa using stripPat_of_append (p :: ps) l
  have hlen : (p :: ps).length - 1 = ps.length := by simp
  calc pyReplaceAux (p :: ps) rep 0 ((p :: ps) ++ l)
      = rep ++ pyReplaceAux (p :: ps) rep ((p :: ps).length - 1) (ps ++ l) := by
        simp only [List.cons_append, pyReplaceAux, List.append_eq, hs]
    _ = rep ++ pyReplaceAux (p :: ps) rep ps.length (ps ++ l) := by rw [hlen]
    _ = rep ++ pyReplaceAux (p :: ps) rep 0 l := by rw [pyReplaceAux_skip]

theorem parseQuality_of_no_occur {id : String}
    (h : occursPat "quality_".data id.data = false) :
    parseQuality ("quality_" ++ id) = id := by
  have hq : "quality_".data = 'q' :: "uality_".data := rfl
  unfold parseQuality
  rw [String.data_append, hq, pyReplaceAux_head, List.nil_append,
    pyReplaceAux_no_occur _ _ (by rwa [hq] at h)]

/-! ### Claim theorems -/

/-- C1 as stated fails on the code: deletion after the upload attempt
is not unconditional.  Concrete run: pending request present, a
1000-byte file is downloaded, the upload raises — the handler ends
with the local file still on disk. -/
theorem C1_counterexample :
    (quality_handler "quality_best" 1 [(1, "https://youtu.be/a")]
        ⟨some "video.mp4", 1000, false⟩).fileRemains = true := by
  decide

/-- C1 amended: the local file is removed after a download failure, a
size violation, and a successful upload, but when the upload itself
raises the file is left on disk; `fileRemains` holds exactly for an
accepted (within-limit) download whose upload fails. -/
theorem C1_amended (data : String) (uid : Nat) (st : List (Nat × String))
    (env : QEnv) :
    (quality_handler data uid st env).fileRemains = true
      ↔ ((∃ url, storeGet st uid = some url ∧ url ≠ "")
         ∧ env.downloadResult.isSome = true
         ∧ env.fileSize ≤ TELEGRAM_MAX_SIZE
         ∧ env.uploadOk = false) := by
  cases hs : storeGet st uid with
  | none => simp [quality_handler, hs]
  | some url =>
    by_cases hu : url = ""
    · simp [quality_handler, hs, hu]
    · cases hd : env.downloadResult with
      | none => simp [quality_handler, hs, hu, hd]
      | some path =>
        by_cases hsz : env.fileSize > TELEGRAM_MAX_SIZE
        · have hle : ¬ env.fileSize ≤ TELEGRAM_MAX_SIZE := by omega
          simp [quality_handler, hs, hu, hd, hsz, hle]
        · cases hb : env.uploadOk with
          | true => simp [quality_handler, hs, hu, hd, hsz, hb]
          | false =>
            have hle : env.fileSize ≤ TELEGRAM_MAX_SIZE := by omega
            simp [quality_handler, hs, hu, hd, hsz, hb, hle]

/-- C2 as stated fails on the code: after a fully successful selection
flow the pending request is still stored, so a second selection for
the same user still finds the URL. -/
theorem C2_counterexample :
    storeGet (quality_handler "quality_best" 1
        (storeSet [] 1 "https://youtu.be/a")
        ⟨some "video.mp4", 1000, true⟩).state 1
      = some "https://youtu.be/a" := by
  decide

/-- C2 amended: the selection flow never destroys the pending request;
quality_handler leaves the session store unchanged in every branch (an
entry is only ever overwritten by a newer submission). -/
theorem C2_amended (data : String) (uid : Nat) (st : List (Nat × String))
    (env : QEnv) : (quality_handler data uid st env).state = st := by
  cases hs : storeGet st uid with
  | none => simp [quality_handler, hs]
  | some url =>
    by_cases hu : url = ""
    · simp [quality_handler, hs, hu]
    · cases hd : env.downloadResult with
      | none => simp [quality_handler, hs, hu, hd]
      | some path =>
        by_cases hsz : env.fileSize > TELEGRAM_MAX_SIZE
        · simp [quality_handler, hs, hu, hd, hsz]
        · cases hb : env.uploadOk with
          | true => simp [quality_handler, hs, hu, hd, hsz, hb]
          | false => simp [quality_handler, hs, hu, hd, hsz, hb]

/-- C3 as stated fails on the code: the token parser removes every
occurrence of the marker, not only the leading one, so the rendition
identifier "quality_22" (token "quality_quality_22") is parsed as
"22" and the download is invoked with "22" instead. -/
theorem C3_counterexample :
    parseQuality ("quality_" ++ "quality_22") = "22"
    ∧ "22" ≠ "quality_22"
    ∧ (quality_handler ("quality_" ++ "quality_22") 1 [(1, "u")]
        ⟨none, 0, true⟩).events
      = [Event.answerCallback, Event.editText MSG_DOWNLOADING,
         Event.downloadCall "u" (download_video_opts "22"),
         Event.editText MSG_DL_FAIL] :=
  ⟨by decide, by decide, by decide⟩

/-- C3 amended: for every rendition identifier that does not itself
contain the substring "quality_", the controller parses out exactly
that identifier and invokes the gateway download with the stored URL
and that identifier verbatim ("best" is passed through verbatim). -/
theorem C3_amended (id url : String) (uid : Nat) (st : List (Nat × String))
    (env : QEnv)
    (hid : occursPat "quality_".data id.data = false)
    (hurl : storeGet st uid = some url) (hne : url ≠ "") :
    parseQuality ("quality_" ++ id) = id
    ∧ ∃ tail, (quality_handler ("quality_" ++ id) uid st env).events
        = [Event.answerCallback, Event.editText MSG_DOWNLOADING,
           Event.downloadCall url (download_video_opts id)] ++ tail := by
  have hp := parseQuality_of_no_occur hid
  refine ⟨hp, ?_⟩
  have hsel : qualitySel ("quality_" ++ id) = id := by
    by_cases hb : id = "best"
    · subst hb
      decide
    · simp [qualitySel, hp, hb]
  cases hd : env.downloadResult with
  | none =>
    exact ⟨[Event.editText MSG_DL_FAIL],
      by simp [quality_handler, hurl, hne, hd, hsel]⟩
  | some path =>
    by_cases hsz : env.fileSize > TELEGRAM_MAX_SIZE
    · exact ⟨[Event.editText MSG_TOO_BIG, Event.removeFile path],
        by simp [quality_handler, hurl, hne, hd, hsz, hsel]⟩
    · cases hb : env.uploadOk with
      | true =>
        exact ⟨[Event.sendVideo path, Event.removeFile path],
          by simp [quality_handler, hurl, hne, hd, hsz, hb, hsel]⟩
      | false =>
        exact ⟨[Event.sendVideo path, Event.editText MSG_ERROR],
          by simp [quality_handler, hurl, hne, hd, hsz, hb, hsel]⟩

/-- Witness for C3 amended at the identifier "137". -/
theorem C3_amended_witness :
    parseQuality ("quality_" ++ "137") = "137"
    ∧ ∃ tail, (quality_handler ("quality_" ++ "137") 1 [(1, "u")]
        ⟨none, 0, true⟩).events
        = [Event.answerCallback, Event.editText MSG_DOWNLOADING,
           Event.downloadCall "u" (download_video_opts "137")] ++ tail :=
  C3_amended "137" "u" 1 [(1, "u")] ⟨none, 0, true⟩
    (by decide) (by decide) (by decide)

/-- C4 as stated fails on the code: the filter keeps entries whose
vcodec value differs from the literal "none", not entries whose vcodec
field is present — an audio-only entry carrying vcodec = "none" has
the field present yet is dropped, and the bot replies "unavailable". -/
theorem C4_counterexample :
    specVideoFilter [audioOnlyFormat] = [audioOnlyFormat]
    ∧ videoFormats [audioOnlyFormat] = []
    ∧ (handle_message "https://youtu.be/a" 1 []
        (some ⟨[audioOnlyFormat]⟩)).events
      = [Event.replyText MSG_ANALYZING,
         Event.infoQuery "https://youtu.be/a",
         Event.replyText MSG_UNAVAILABLE] :=
  ⟨by decide, by decide, by decide⟩

/-- C4 amended: handle_message keeps exactly the renditions whose
vcodec value is not the literal "none" (an entry with the field absent
is kept), and when that filtered list is empty it replies with the
unavailable notice and stores no pending request. -/
theorem C4_amended (text : String) (uid : Nat) (st : List (Nat × String))
    (info : Info)
    (hdom : containsSupported (pyStrip text) = true) :
    (∀ fs : List Format, ∀ f, f ∈ videoFormats fs
        ↔ (f ∈ fs ∧ f.vcodec ≠ some "none"))
    ∧ (∀ fs : List Format, ∀ f, f ∈ fs → f.vcodec = none →
        f ∈ videoFormats fs)
    ∧ (videoFormats info.formats = [] →
        handle_message text uid st (some info)
          = ⟨[Event.replyText MSG_ANALYZING, Event.infoQuery (pyStrip text),
              Event.replyText MSG_UNAVAILABLE], st⟩) := by
  refine ⟨?_, ?_, ?_⟩
  · intro fs f
    simp [videoFormats, List.mem_filter, bne_iff_ne]
  · intro fs f hmem habs
    simp [videoFormats, List.mem_filter, bne_iff_ne, hmem, habs]
  · intro hempty
    simp [handle_message, hdom, hempty]

/-- Witness for C4 amended on a single audio-only entry. -/
theorem C4_amended_witness :
    (∀ fs : List Format, ∀ f, f ∈ videoFormats fs
        ↔ (f ∈ fs ∧ f.vcodec ≠ some "none"))
    ∧ (∀ fs : List Format, ∀ f, f ∈ fs → f.vcodec = none →
        f ∈ videoFormats fs)
    ∧ (videoFormats [audioOnlyFormat] = [] →
        handle_message "https://youtu.be/a" 1 [] (some ⟨[audioOnlyFormat]⟩)
          = ⟨[Event.replyText MSG_ANALYZING,
              Event.infoQuery (pyStrip "https://youtu.be/a"),
              Event.replyText MSG_UNAVAILABLE], []⟩) :=
  C4_amended "https://youtu.be/a" 1 [] ⟨[audioOnlyFormat]⟩ (by decide)

/-- C5: the size check is a strict boundary at TELEGRAM_MAX_SIZE
(50 MiB = 50*1024*1024 bytes): a downloaded file of exactly the limit
is accepted and uploaded, while one byte over is rejected with the
size-violation notice and the local file is removed. -/
theorem C5_boundary (data url path : String) (uid : Nat)
    (st : List (Nat × String)) (env : QEnv)
    (hurl : storeGet st uid = some url) (hne : url ≠ "")
    (hdl : env.downloadResult = some path) :
    TELEGRAM_MAX_SIZE = 50 * 1024 * 1024
    ∧ (env.fileSize = TELEGRAM_MAX_SIZE →
        (quality_handler data uid st env).events
          = [Event.answerCallback, Event.editText MSG_DOWNLOADING,
             Event.downloadCall url (download_video_opts (qualitySel data)),
             Event.sendVideo path]
            ++ (if env.uploadOk then [Event.removeFile path]
                else [Event.editText MSG_ERROR]))
    ∧ (env.fileSize = TELEGRAM_MAX_SIZE + 1 →
        (quality_handler data uid st env).events
          = [Event.answerCallback, Event.editText MSG_DOWNLOADING,
             Event.downloadCall url (download_video_opts (qualitySel data)),
             Event.editText MSG_TOO_BIG, Event.removeFile path]
        ∧ (quality_handler data uid st env).fileRemains = false) := by
  refine ⟨rfl, ?_, ?_⟩
  · intro hsz
    have hng : ¬ env.fileSize > TELEGRAM_MAX_SIZE := by omega
    cases hub : env.uploadOk with
    | true => simp [quality_handler, hurl, hne, hdl, hng, hub]
    | false => simp [quality_handler, hurl, hne, hdl, hng, hub]
  · intro hsz
    have hg : env.fileSize > TELEGRAM_MAX_SIZE := by omega
    constructor
    · simp [quality_handler, hurl, hne, hdl, hg]
    · simp [quality_handler, hurl, hne, hdl, hg]

/-- Witness for C5 at a file of exactly 50 MiB, which is uploaded and
then removed. -/
theorem C5_boundary_witness :
    (quality_handler "quality_best" 1 [(1, "u")]
        ⟨some "video.mp4", 50 * 1024 * 1024, true⟩).events
      = [Event.answerCallback, Event.editText MSG_DOWNLOADING,
         Event.downloadCall "u" (download_video_opts (qualitySel "quality_best")),
         Event.sendVideo "video.mp4", Event.removeFile "video.mp4"] := by
  have h := (C5_boundary "quality_best" "u" "video.mp4" 1 [(1, "u")]
      ⟨some "video.mp4", 50 * 1024 * 1024, true⟩
      (by decide) (by decide) rfl).2.1 rfl
  simpa using h

/-- C6: the quality menu takes at most the first five renditions in
the gateway's order (no re-sorting, no dedup), one single-button row
per rendition labelled from its height (or the unknown marker) and
container, appends one trailing best-quality row, hence is never
empty; with more than five entries it has exactly 6 rows. -/
theorem C6_menu (fs : List Format) :
    (get_quality_keyboard fs).length = min 5 fs.length + 1
    ∧ get_quality_keyboard fs ≠ []
    ∧ (5 < fs.length → (get_quality_keyboard fs).length = 6)
    ∧ (get_quality_keyboard fs).dropLast
        = (fs.take 5).map (fun fmt => [qualityButton fmt])
    ∧ (get_quality_keyboard fs).getLast? = some [bestButton] := by
  refine ⟨?_, ?_, ?_, ?_, ?_⟩
  · simp [get_quality_keyboard]
  · intro hcontra
    have := congrArg List.length hcontra
    simp [get_quality_keyboard] at this
  · intro h5
    simp only [get_quality_keyboard, List.length_append, List.length_map,
      List.length_take, List.length_singleton]
    omega
  · simp [get_quality_keyboard]
  · simp [get_quality_keyboard, List.getLast?_concat]

/-- Witness for C6 at a six-element rendition list: exactly 6 rows. -/
theorem C6_menu_witness : (get_quality_keyboard sixFormats).length = 6 :=
  (C6_menu sixFormats).2.2.1 (by decide)

/-- C7: a message whose text contains none of the four recognized
domain substrings is answered with exactly the rejection notice; no
gateway call is made and no pending request is created. -/
theorem C7_reject (text : String) (uid : Nat) (st : List (Nat × String))
    (gw : Option Info) (h : containsSupported text = false) :
    handle_message text uid st gw = ⟨[Event.replyText MSG_REJECT], st⟩ := by
  have h2 : containsSupported (pyStrip text) = false := by
    cases hc : containsSupported (pyStrip text) with
    | false => rfl
    | true => exact absurd (containsSupported_of_pyStrip text hc) (by simp [h])
  simp [handle_message, h2]

/-- Witness for C7: the plain text "hello" is rejected. -/
theorem C7_reject_witness :
    handle_message "hello" 1 [] none = ⟨[Event.replyText MSG_REJECT], []⟩ :=
  C7_reject "hello" 1 [] none (by decide)

/-- C8: a quality selection from a user with no pending request is
answered by editing to the expiry notice; no gateway download is
invoked and the session store is unchanged. -/
theorem C8_expired (data : String) (uid : Nat) (st : List (Nat × String))
    (env : QEnv) (h : storeGet st uid = none) :
    quality_handler data uid st env
      = ⟨[Event.answerCallback, Event.editText MSG_EXPIRED], st, false⟩ := by
  simp [quality_handler, h]

/-- Witness for C8 with an empty session store. -/
theorem C8_expired_witness :
    quality_handler "quality_best" 7 [] ⟨none, 0, true⟩
      = ⟨[Event.answerCallback, Event.editText MSG_EXPIRED], [], false⟩ :=
  C8_expired "quality_best" 7 [] ⟨none, 0, true⟩ (by decide)

/-- C9: when the trimmed text contains a recognized domain substring,
handle_message issues exactly one analyzing acknowledgment, and it
precedes the gateway info query. -/
theorem C9_ack (text : String) (uid : Nat) (st : List (Nat × String))
    (gw : Option Info) (h : containsSupported (pyStrip text) = true) :
    ∃ rest, (handle_message text uid st gw).events
        = Event.replyText MSG_ANALYZING
          :: Event.infoQuery (pyStrip text) :: rest
      ∧ List.count (Event.replyText MSG_ANALYZING) rest = 0 := by
  cases gw with
  | none =>
    refine ⟨[Event.replyText MSG_INFO_FAIL], ?_, ?_⟩
    · simp [handle_message, h]
    · decide
  | some info =>
    by_cases hv : videoFormats info.formats = []
    · refine ⟨[Event.replyText MSG_UNAVAILABLE], ?_, ?_⟩
      · simp [handle_message, h, hv]
      · decide
    · refine ⟨[Event.replyMenu MSG_CHOOSE
          (get_quality_keyboard (videoFormats info.formats))], ?_, ?_⟩
      · simp [handle_message, h, hv]
      · simp [List.count_eq_zero]

/-- Witness for C9 at a YouTube short link with a failing gateway. -/
theorem C9_ack_witness :
    ∃ rest, (handle_message "https://youtu.be/abc" 1 [] none).events
        = Event.replyText MSG_ANALYZING
          :: Event.infoQuery (pyStrip "https://youtu.be/abc") :: rest
      ∧ List.count (Event.replyText MSG_ANALYZING) rest = 0 :=
  C9_ack "https://youtu.be/abc" 1 [] none (by decide)

/-- C10: download_video always passes the configured maximum transfer
size to the gateway as the max_filesize option, so the gateway itself
can abort an oversized rendition before the post-download check. -/
theorem C10_max_filesize :
    (∀ q : String, (download_video_opts q).max_filesize = TELEGRAM_MAX_SIZE)
    ∧ TELEGRAM_MAX_SIZE = 50 * 1024 * 1024 :=
  ⟨fun _ => rfl, rfl⟩

end VideoBot
